import Mathlib

/-
Shallow embedding of the backend of the jillravaliya/three-tier-app repository
(the Express application in backend/app.js): the image-to-PDF conversion
pipeline, its compression adapter, filename sanitization, the multer upload
stage with its error-handling middleware, and the audit-store endpoints.

Buffers are modelled as lists of bytes.  The two external image libraries are
modelled as oracle parameters: `sharpJpeg` (re-encoding, which may fail) and
an `openImg` function (PDFKit image opening, which may fail on bytes it
cannot parse).  The PDF response is streamed while the request is processed
(the source pipes the document into the response before the per-file loop, and
the source comment on the route says it streams the PDF directly to the
response), so by the time any per-file failure can occur the response headers
and the initial document bytes have been flushed; the catch block in the
source only sends a JSON error when headers have not been sent, hence a
failure inside the per-file loop leaves the caller a truncated PDF stream.
-/

set_option autoImplicit false

namespace JpegToPdf

/-! ## Filename sanitization -/

/-- A byte buffer (contents of an uploaded file or a re-encoded image). -/
abbrev Buffer := List Nat

/-- Characters kept by the sanitization regex: the class [A-Za-z0-9_-]
(the source regex is case-insensitive). -/
def isSafeChar (c : Char) : Bool :=
  (decide ('a' ≤ c) && decide (c ≤ 'z')) ||
  (decide ('A' ≤ c) && decide (c ≤ 'Z')) ||
  (decide ('0' ≤ c) && decide (c ≤ '9')) ||
  c = '_' || c = '-'

/-- One character of the replace: a character outside the safe class becomes
an underscore, a safe character is kept. -/
def sanitizeChar (c : Char) : Char :=
  if isSafeChar c then c else '_'

/-- The character-wise regex replace performed on the requested filename. -/
def sanitizeName (s : String) : String :=
  ⟨s.data.map sanitizeChar⟩

/-- The sanitized attachment filename: the replace result with the pdf
extension appended, as computed in the convert route. -/
def sanitizedFilename (name : String) : String :=
  sanitizeName name ++ ".pdf"

/-- The Content-Disposition header value built from the sanitized name. -/
def contentDisposition (fname : String) : String :=
  "attachment; filename=\"" ++ fname ++ "\""

/-! ## Compression adapter -/

/-- The quality parameter selected by the switch over the compression level:
ultra selects 30, compressed selects 60, normal and every other value fall to
the default branch and select 90. -/
def quality (compressionLevel : String) : Nat :=
  if compressionLevel = "ultra" then 30
  else if compressionLevel = "compressed" then 60
  else 90

/-- The compression adapter: re-encode the buffer at the tier quality through
the sharp oracle; if re-encoding fails, return the original buffer. -/
def compressImage (sharpJpeg : Buffer → Nat → Option Buffer)
    (buffer : Buffer) (compressionLevel : String) : Buffer :=
  match sharpJpeg buffer (quality compressionLevel) with
  | some encoded => encoded
  | none => buffer

/-! ## Request body fields -/

/-- The two form fields read by the convert route.  A field is `none` when it
is absent from the body (destructuring defaults apply only then). -/
structure ConvertBody where
  compressionLevel : Option String
  filename : Option String
deriving DecidableEq

/-- The compression level after the destructuring default: the default value
normal is used only when the field is absent. -/
def effectiveCompressionLevel (b : ConvertBody) : String :=
  b.compressionLevel.getD "normal"

/-- The filename after the destructuring default: the default value converted
is used only when the field is absent. -/
def effectiveFilename (b : ConvertBody) : String :=
  b.filename.getD "converted"

/-- The attachment filename the convert route places in the response. -/
def responseFilename (b : ConvertBody) : String :=
  sanitizedFilename (effectiveFilename b)

/-! ## Upload stage (multer) and error-handling middleware -/

/-- An uploaded file: declared media type and raw bytes, held in memory. -/
structure UploadedFile where
  mimetype : String
  buffer : Buffer
deriving DecidableEq

/-- Character-list model of the string startsWith test: the second list is a
leading segment of the first. -/
def leadingMatch : List Char → List Char → Bool
  | _, [] => true
  | [], _ :: _ => false
  | c :: cs, p :: ps => c = p && leadingMatch cs ps

/-- The file filter test: the declared media type starts with the image
prefix (models mimetype.startsWith applied to the string image slash). -/
def isImageType (mimetype : String) : Bool :=
  leadingMatch mimetype.data ("image/").data

/-- The per-file size limit configured on the upload: 10 MiB. -/
def MAX_FILE_SIZE : Nat := 10 * 1024 * 1024

/-- The per-request file-count limit configured on the upload: 20 files. -/
def MAX_FILES : Nat := 20

/-- An error reaching the error-handling middleware: either a multer limit
error carrying its code, or a plain error carrying only a message (the file
filter rejects non-images with a plain error, not a multer error). -/
inductive AppError where
  | multerErr (code : String) (message : String)
  | genericErr (message : String)
deriving DecidableEq

/-- The multer upload stage, processing files in arrival order: a file past
the count limit raises the count-limit multer error, a file whose declared
type does not start with the image prefix is rejected by the file filter with
a plain error, and a file larger than the size limit raises the size-limit
multer error. -/
def multerIngestAux : Nat → List UploadedFile → Except AppError (List UploadedFile)
  | _, [] => Except.ok []
  | idx, f :: rest =>
    if MAX_FILES ≤ idx then
      Except.error (AppError.multerErr "LIMIT_FILE_COUNT" "Too many files")
    else if isImageType f.mimetype then
      if MAX_FILE_SIZE < f.buffer.length then
        Except.error (AppError.multerErr "LIMIT_FILE_SIZE" "File too large")
      else
        (multerIngestAux (idx + 1) rest).map (fun fs => f :: fs)
    else
      Except.error (AppError.genericErr "Only image files are allowed")

/-- The whole upload stage starting at the first file. -/
def multerIngest (files : List UploadedFile) : Except AppError (List UploadedFile) :=
  multerIngestAux 0 files

/-! ## Responses and the PDF document -/

/-- Pixel dimensions of an opened image. -/
structure Image where
  width : Nat
  height : Nat
deriving DecidableEq

/-- One page of the produced document: the buffer whose image fills it, the
page dimensions, and the placement coordinates of the image. -/
structure Page where
  src : Buffer
  width : Nat
  height : Nat
  x : Nat
  y : Nat
deriving DecidableEq

/-- A conversion audit record as inserted into the store. -/
structure ConversionRecord where
  filename : String
  file_count : Nat
  compression_level : String
  user_id : String
  created_at : Nat
deriving DecidableEq

/-- What the caller receives: a JSON error body with an error field and a
status, a JSON array of audit records, a plain JSON message, a complete PDF
attachment, or a truncated PDF stream (streaming began, then processing
failed, and because the response headers were already sent the catch block
sends no JSON). -/
inductive HttpResponse where
  | jsonError (status : Nat) (error : String)
  | jsonRecords (records : List ConversionRecord)
  | jsonMessage (message : String)
  | pdfDoc (filename : String) (pages : List Page)
  | truncatedPdf (filename : String) (flushed : List Page)
deriving DecidableEq

/-- The error-handling middleware: the two recognized multer limit codes give
a 400 JSON error with a fixed message; every other error, the plain file
filter error included, falls to the generic 500 branch carrying the error
message. -/
def errorMiddleware : AppError → HttpResponse
  | AppError.multerErr code msg =>
    if code = "LIMIT_FILE_SIZE" then
      HttpResponse.jsonError 400 "File too large. Maximum size is 10MB."
    else if code = "LIMIT_FILE_COUNT" then
      HttpResponse.jsonError 400 "Too many files. Maximum is 20 files."
    else HttpResponse.jsonError 500 msg
  | AppError.genericErr msg => HttpResponse.jsonError 500 msg

/-! ## The convert route -/

/-- The per-file loop of the convert route: each file is compressed, opened
by the PDF engine, and appended as a page sized to the image dimensions with
the image placed at the origin.  If the engine cannot open a buffer the loop
throws: the error result carries the pages already appended to the piped
document (hence already part of the bytes streamed to the caller). -/
def processFiles (sharpJpeg : Buffer → Nat → Option Buffer)
    (openImg : Buffer → Option Image) (level : String) :
    List UploadedFile → Except (List Page) (List Page)
  | [] => Except.ok []
  | f :: rest =>
    let buf := compressImage sharpJpeg f.buffer level
    match openImg buf with
    | none => Except.error []
    | some img =>
      let page := Page.mk buf img.width img.height 0 0
      match processFiles sharpJpeg openImg level rest with
      | Except.ok pages => Except.ok (page :: pages)
      | Except.error flushed => Except.error (page :: flushed)

/-- The audit-store state: whether the startup connectivity probe succeeded,
whether the store is currently reachable, and its stored records. -/
structure DbState where
  connected : Bool
  reachable : Bool
  records : List ConversionRecord
deriving DecidableEq

/-- The convert route.  The multer stage runs first and its errors go to the
middleware; a request with zero files is answered with a 400 JSON error
before any streaming; then the document is piped to the response and the
per-file loop runs, so a failure inside the loop truncates the stream (the
headers are already sent and the catch sends no JSON).  On success the route
makes one best-effort audit insert whose failure is swallowed. -/
def postConvert (sharpJpeg : Buffer → Nat → Option Buffer)
    (openImg : Buffer → Option Image) (st : DbState)
    (files : List UploadedFile) (body : ConvertBody)
    (userId : Option String) (now : Nat) : HttpResponse × DbState :=
  match multerIngest files with
  | Except.error e => (errorMiddleware e, st)
  | Except.ok fs =>
    if fs.length = 0 then (HttpResponse.jsonError 400 "No images provided", st)
    else
      let level := effectiveCompressionLevel body
      let fname := responseFilename body
      match processFiles sharpJpeg openImg level fs with
      | Except.error flushed => (HttpResponse.truncatedPdf fname flushed, st)
      | Except.ok pages =>
        let record := ConversionRecord.mk fname fs.length level
          (userId.getD "anonymous") now
        let st2 :=
          if st.connected && st.reachable then
            DbState.mk st.connected st.reachable (record :: st.records)
          else st
        (HttpResponse.pdfDoc fname pages, st2)

/-! ## The conversions endpoints -/

/-- Insert one record into a list kept ordered by creation time descending. -/
def insertDesc (r : ConversionRecord) : List ConversionRecord → List ConversionRecord
  | [] => [r]
  | x :: xs =>
    if x.created_at ≤ r.created_at then r :: x :: xs else x :: insertDesc r xs

/-- Order records by creation time descending, as the store query does. -/
def sortByCreatedDesc : List ConversionRecord → List ConversionRecord
  | [] => []
  | x :: xs => insertDesc x (sortByCreatedDesc xs)

/-- The conversions history endpoint: when the startup probe failed it
answers with the empty array; otherwise it queries the store for the most
recent fifty records, and a failing query (store unreachable) is thrown and
caught, answering with a 500 JSON error. -/
def getConversions (st : DbState) : HttpResponse :=
  if st.connected = false then HttpResponse.jsonRecords []
  else if st.reachable = false then
    HttpResponse.jsonError 500 "Failed to fetch conversions"
  else HttpResponse.jsonRecords ((sortByCreatedDesc st.records).take 50)

/-! ## Response classification helpers and concrete test data -/

/-- Whether a response is a JSON error body carrying an error field. -/
def isJsonErrorResp : HttpResponse → Bool
  | HttpResponse.jsonError _ _ => true
  | _ => false

/-- Whether a response is a complete PDF attachment (the success outcome). -/
def isPdfSuccess : HttpResponse → Bool
  | HttpResponse.pdfDoc _ _ => true
  | _ => false

/-- The HTTP status carried by a response; a truncated stream already sent a
200 status line with the PDF headers before failing. -/
def statusOf : HttpResponse → Nat
  | HttpResponse.jsonError status _ => status
  | _ => 200

/-- A re-encoder oracle that always succeeds and returns the input. -/
def idSharp : Buffer → Nat → Option Buffer := fun b _ => some b

/-- A re-encoder oracle that always fails. -/
def alwaysFailSharp : Buffer → Nat → Option Buffer := fun _ _ => none

/-- An image-opening oracle that accepts every buffer. -/
def alwaysOpen : Buffer → Option Image := fun _ => some (Image.mk 1 1)

/-- An image-opening oracle that rejects the buffer holding the byte two. -/
def secondBadOpen : Buffer → Option Image :=
  fun b => if b = [2] then none else some (Image.mk 5 7)

/-- A re-encoder that handles the buffer holding the byte one and fails on
everything else (a corrupt second upload). -/
def corruptSharp : Buffer → Nat → Option Buffer :=
  fun b _ => if b = [1] then some [1, 1] else none

/-- An image opener that cannot parse the corrupt buffer holding the byte
nine. -/
def corruptOpen : Buffer → Option Image :=
  fun b => if b = [9] then none else some (Image.mk 3 4)

/-- One well-formed upload. -/
def oneJpeg : List UploadedFile := [UploadedFile.mk "image/jpeg" [1]]

/-- Two uploads where the second one makes the image opener fail. -/
def twoJpegFiles : List UploadedFile :=
  [UploadedFile.mk "image/jpeg" [1], UploadedFile.mk "image/jpeg" [2]]

/-- Two uploads where the second one is corrupt. -/
def mixedFiles : List UploadedFile :=
  [UploadedFile.mk "image/jpeg" [1], UploadedFile.mk "image/jpeg" [9]]

/-- Two uploads on which re-encoding always fails. -/
def twoFiles56 : List UploadedFile :=
  [UploadedFile.mk "image/jpeg" [5], UploadedFile.mk "image/jpeg" [6]]

/-- One upload whose declared media type is not an image type. -/
def pdfFile : List UploadedFile := [UploadedFile.mk "application/pdf" [1]]

/-- A body with both fields absent. -/
def emptyBody : ConvertBody := ConvertBody.mk none none

/-- A store state that was connected at startup but is now unreachable. -/
def downStore : DbState := DbState.mk true false []

/-- A store state that never connected. -/
def noStore : DbState := DbState.mk false false []

deriving instance DecidableEq for Except

/-! ## Helper lemmas on sanitization -/

theorem sanitizeName_data (s : String) :
    (sanitizeName s).data = s.data.map sanitizeChar := rfl

theorem sanitizeName_length (s : String) :
    (sanitizeName s).length = s.length := by
  show (s.data.map sanitizeChar).length = s.data.length
  exact List.length_map _ _

theorem isSafeChar_sanitizeChar (c : Char) :
    isSafeChar (sanitizeChar c) = true := by
  by_cases h : isSafeChar c
  · simp [sanitizeChar, h]
  · simp [sanitizeChar, h]
    decide

theorem sanitizeChar_idem (c : Char) :
    sanitizeChar (sanitizeChar c) = sanitizeChar c := by
  by_cases h : isSafeChar c
  · simp [sanitizeChar, h]
  · simp [sanitizeChar, h]

/-- C1: the compression tier selectors map to the fixed qualities 90, 60 and
30, and an unrecognized or omitted selector selects the same parameter as
normal, namely 90. -/
theorem quality_tier_selection (s : String) (b : ConvertBody)
    (h1 : s ≠ "compressed") (h2 : s ≠ "ultra") (hb : b.compressionLevel = none) :
    quality "normal" = 90 ∧ quality "compressed" = 60 ∧ quality "ultra" = 30 ∧
    quality s = 90 ∧ quality (effectiveCompressionLevel b) = 90 := by
  refine ⟨rfl, rfl, rfl, ?_, ?_⟩
  · simp [quality, h1, h2]
  · simp [effectiveCompressionLevel, hb, quality]

theorem quality_tier_selection_witness :
    ("garbage" : String) ≠ "compressed" ∧ ("garbage" : String) ≠ "ultra" ∧
    (ConvertBody.mk none none).compressionLevel = none ∧
    (quality "normal" = 90 ∧ quality "compressed" = 60 ∧ quality "ultra" = 30 ∧
      quality "garbage" = 90 ∧
      quality (effectiveCompressionLevel (ConvertBody.mk none none)) = 90) :=
  ⟨by decide, by decide, rfl,
    quality_tier_selection "garbage" (ConvertBody.mk none none)
      (by decide) (by decide) rfl⟩

/-- C3: sanitization replaces each character outside the class [A-Za-z0-9_-]
with an underscore and keeps the rest, so the sanitized name has the same
length as the input; the attachment filename is the sanitized name followed
by the pdf extension. -/
theorem sanitize_replaces_each_char (name : String) (i : Nat)
    (h : i < name.data.length) (h2 : i < (sanitizeName name).data.length) :
    (sanitizeName name).length = name.length ∧
    (sanitizeName name).data.get ⟨i, h2⟩ =
      (if isSafeChar (name.data.get ⟨i, h⟩) then name.data.get ⟨i, h⟩ else '_') ∧
    sanitizedFilename name = sanitizeName name ++ ".pdf" := by
  refine ⟨sanitizeName_length name, ?_, rfl⟩
  simp [sanitizeName, sanitizeChar]

theorem sanitize_replaces_each_char_witness :
    2 < ("My File!@#" : String).data.length ∧
    2 < (sanitizeName "My File!@#").data.length ∧
    ((sanitizeName "My File!@#").length = ("My File!@#" : String).length ∧
      (sanitizeName "My File!@#").data.get ⟨2, by decide⟩ =
        (if isSafeChar (("My File!@#" : String).data.get ⟨2, by decide⟩)
          then ("My File!@#" : String).data.get ⟨2, by decide⟩ else '_') ∧
      sanitizedFilename "My File!@#" = sanitizeName "My File!@#" ++ ".pdf") :=
  ⟨by decide, by decide,
    sanitize_replaces_each_char "My File!@#" 2 (by decide) (by decide)⟩

/-- C4 counterexample: sanitization does not strip disallowed characters;
on the input "My File!@#" every disallowed character is replaced by an
underscore, the length is unchanged, and in particular the sanitized name is
not strictly shorter than the input. -/
theorem sanitize_does_not_strip :
    sanitizeName "My File!@#" = "My_File___" ∧
    (sanitizeName "My File!@#").length = ("My File!@#" : String).length ∧
    ¬ (sanitizeName "My File!@#").length < ("My File!@#" : String).length := by
  refine ⟨?_, ?_, ?_⟩ <;> decide

/-- C4 amended: the pipeline sanitizes the requested output filename by
replacing, not stripping, each character outside [A-Za-z0-9_-] with an
underscore before using it in the response disposition header, so the
sanitized name always has the same length as the input. -/
theorem sanitize_preserves_length (s : String) (cl : Option String) :
    (sanitizeName s).length = s.length ∧
    sanitizedFilename s = sanitizeName s ++ ".pdf" ∧
    responseFilename (ConvertBody.mk cl (some s)) = sanitizedFilename s := by
  exact ⟨sanitizeName_length s, rfl, rfl⟩

/-- C9: sanitization output stays inside the safe alphabet, preserves length,
and is idempotent. -/
theorem sanitize_idempotent_safe (s : String) (c : Char)
    (hc : c ∈ (sanitizeName s).data) :
    isSafeChar c = true ∧
    (sanitizeName s).length = s.length ∧
    sanitizeName (sanitizeName s) = sanitizeName s := by
  refine ⟨?_, sanitizeName_length s, ?_⟩
  · rcases List.mem_map.mp (by simpa [sanitizeName] using hc) with ⟨a, _, ha⟩
    simpa [← ha] using isSafeChar_sanitizeChar a
  · have h : ∀ l : List Char, (l.map sanitizeChar).map sanitizeChar = l.map sanitizeChar := by
      intro l
      rw [List.map_map]
      exact List.map_congr_left (fun a _ => sanitizeChar_idem a)
    simpa [sanitizeName] using congrArg String.mk (h s.data)

theorem sanitize_idempotent_safe_witness :
    '_' ∈ (sanitizeName "a!").data ∧
    (isSafeChar '_' = true ∧
      (sanitizeName "a!").length = ("a!" : String).length ∧
      sanitizeName (sanitizeName "a!") = sanitizeName "a!") :=
  ⟨by decide, sanitize_idempotent_safe "a!" '_' (by decide)⟩

/-! ## Helper lemmas on the upload stage and the per-file loop -/

theorem multerIngestAux_ok (files : List UploadedFile) : ∀ idx : Nat,
    idx + files.length ≤ MAX_FILES →
    (∀ f ∈ files, isImageType f.mimetype = true) →
    (∀ f ∈ files, f.buffer.length ≤ MAX_FILE_SIZE) →
    multerIngestAux idx files = Except.ok files := by
  induction files with
  | nil => intro idx _ _ _; rfl
  | cons f rest ih =>
    intro idx hcount himg hsize
    have h1 : ¬ MAX_FILES ≤ idx := by
      simp [List.length_cons] at hcount; omega
    have h2 : isImageType f.mimetype = true := himg f (List.mem_cons_self f rest)
    have h3 : ¬ MAX_FILE_SIZE < f.buffer.length := by
      have := hsize f (List.mem_cons_self f rest); omega
    have h4 : multerIngestAux (idx + 1) rest = Except.ok rest := by
      refine ih (idx + 1) ?_ ?_ ?_
      · simp [List.length_cons] at hcount; omega
      · exact fun g hg => himg g (List.mem_cons_of_mem f hg)
      · exact fun g hg => hsize g (List.mem_cons_of_mem f hg)
    simp [multerIngestAux, h1, h2, h3, h4, Except.map]

theorem multerIngest_ok (files : List UploadedFile)
    (hle : files.length ≤ MAX_FILES)
    (himg : ∀ f ∈ files, isImageType f.mimetype = true)
    (hsize : ∀ f ∈ files, f.buffer.length ≤ MAX_FILE_SIZE) :
    multerIngest files = Except.ok files :=
  multerIngestAux_ok files 0 (by omega) himg hsize

theorem multerIngestAux_badType (files : List UploadedFile) : ∀ idx : Nat,
    idx + files.length ≤ MAX_FILES →
    (∀ f ∈ files, f.buffer.length ≤ MAX_FILE_SIZE) →
    (∃ f ∈ files, isImageType f.mimetype = false) →
    multerIngestAux idx files =
      Except.error (AppError.genericErr "Only image files are allowed") := by
  induction files with
  | nil =>
    intro idx _ _ hbad
    rcases hbad with ⟨f, hf, _⟩
    exact absurd hf (List.not_mem_nil f)
  | cons f rest ih =>
    intro idx hcount hsize hbad
    have h1 : ¬ MAX_FILES ≤ idx := by
      simp [List.length_cons] at hcount; omega
    by_cases hf : isImageType f.mimetype
    · have h3 : ¬ MAX_FILE_SIZE < f.buffer.length := by
        have := hsize f (List.mem_cons_self f rest); omega
      have hbad2 : ∃ g ∈ rest, isImageType g.mimetype = false := by
        rcases hbad with ⟨g, hg, hgbad⟩
        rcases List.mem_cons.mp hg with hgf | hgr
        · rw [hgf] at hgbad; rw [hf] at hgbad; exact absurd hgbad (by decide)
        · exact ⟨g, hgr, hgbad⟩
      have h4 := ih (idx + 1)
        (by simp [List.length_cons] at hcount; omega)
        (fun g hg => hsize g (List.mem_cons_of_mem f hg)) hbad2
      simp [multerIngestAux, h1, hf, h3, h4, Except.map]
    · simp [multerIngestAux, h1, hf]

theorem processFiles_ok (sharpJpeg : Buffer → Nat → Option Buffer)
    (openImg : Buffer → Option Image) (level : String)
    (files : List UploadedFile)
    (hopen : ∀ f ∈ files, (openImg (compressImage sharpJpeg f.buffer level)).isSome = true) :
    ∃ pages, processFiles sharpJpeg openImg level files = Except.ok pages ∧
      pages.length = files.length ∧
      ∀ i, (hi : i < files.length) → (hp : i < pages.length) →
        ∃ img, openImg (compressImage sharpJpeg (files.get ⟨i, hi⟩).buffer level) = some img ∧
          pages.get ⟨i, hp⟩ =
            Page.mk (compressImage sharpJpeg (files.get ⟨i, hi⟩).buffer level)
              img.width img.height 0 0 := by
  induction files with
  | nil =>
    exact ⟨[], rfl, rfl, fun i hi _ => absurd hi (Nat.not_lt_zero i)⟩
  | cons f rest ih =>
    have hf := hopen f (List.mem_cons_self f rest)
    rcases Option.isSome_iff_exists.mp hf with ⟨img, himg⟩
    rcases ih (fun g hg => hopen g (List.mem_cons_of_mem f hg)) with ⟨pages, hok, hlen, hidx⟩
    refine ⟨Page.mk (compressImage sharpJpeg f.buffer level) img.width img.height 0 0 :: pages,
      ?_, ?_, ?_⟩
    · simp [processFiles, himg, hok]
    · simp [hlen]
    · intro i hi hp
      cases i with
      | zero => exact ⟨img, himg, by simp⟩
      | succ n =>
        have hi2 : n < rest.length := by simpa using hi
        have hp2 : n < pages.length := by simpa using hp
        rcases hidx n hi2 hp2 with ⟨img2, h2, h3⟩
        exact ⟨img2, by simpa using h2, by simpa using h3⟩

/-- C2 counterexample: a two-file request on which the image opener fails on
the second file.  The first page has already been appended to the piped
document, so processing fails mid-stream: the caller receives a truncated
PDF stream (partial PDF bytes) and no JSON error body, refuting the claim
that a processing failure always yields a JSON error and never partial PDF
output. -/
theorem convert_midstream_failure_truncates :
    processFiles idSharp secondBadOpen "normal" twoJpegFiles =
      Except.error [Page.mk [1] 5 7 0 0] ∧
    (postConvert idSharp secondBadOpen noStore twoJpegFiles emptyBody none 0).fst =
      HttpResponse.truncatedPdf "converted.pdf" [Page.mk [1] 5 7 0 0] ∧
    isJsonErrorResp
      (postConvert idSharp secondBadOpen noStore twoJpegFiles emptyBody none 0).fst = false := by
  refine ⟨?_, ?_, ?_⟩ <;> decide

/-- C2 amended: every JSON body sent by the convert route or the middleware
carries an error field, and failures are answered with a JSON error exactly
when they occur before streaming begins (upload-stage rejection or zero
files); a complete PDF is sent exactly when every file processes
successfully, and a failure during per-file processing truncates the already
streaming PDF response instead of producing JSON. -/
theorem convert_response_characterization (sharpJpeg : Buffer → Nat → Option Buffer)
    (openImg : Buffer → Option Image) (st : DbState) (files : List UploadedFile)
    (body : ConvertBody) (userId : Option String) (now : Nat) :
    (∀ e : AppError, ∃ status msg, errorMiddleware e = HttpResponse.jsonError status msg) ∧
    ((∃ e, multerIngest files = Except.error e ∧
        (postConvert sharpJpeg openImg st files body userId now).fst = errorMiddleware e) ∨
      (∃ fs, multerIngest files = Except.ok fs ∧
        ((fs.length = 0 ∧
            (postConvert sharpJpeg openImg st files body userId now).fst =
              HttpResponse.jsonError 400 "No images provided") ∨
          (∃ pages,
            processFiles sharpJpeg openImg (effectiveCompressionLevel body) fs =
              Except.ok pages ∧
            (postConvert sharpJpeg openImg st files body userId now).fst =
              HttpResponse.pdfDoc (responseFilename body) pages) ∨
          (∃ flushed,
            processFiles sharpJpeg openImg (effectiveCompressionLevel body) fs =
              Except.error flushed ∧
            (postConvert sharpJpeg openImg st files body userId now).fst =
              HttpResponse.truncatedPdf (responseFilename body) flushed)))) := by
  constructor
  · intro e
    cases e with
    | multerErr code msg =>
      by_cases hc1 : code = "LIMIT_FILE_SIZE"
      · exact ⟨400, "File too large. Maximum size is 10MB.", by simp [errorMiddleware, hc1]⟩
      · by_cases hc2 : code = "LIMIT_FILE_COUNT"
        · exact ⟨400, "Too many files. Maximum is 20 files.", by
            simp [errorMiddleware, hc1, hc2]⟩
        · exact ⟨500, msg, by simp [errorMiddleware, hc1, hc2]⟩
    | genericErr msg => exact ⟨500, msg, rfl⟩
  · cases hmi : multerIngest files with
    | error e => exact Or.inl ⟨e, rfl, by simp [postConvert, hmi]⟩
    | ok fs =>
      refine Or.inr ⟨fs, rfl, ?_⟩
      by_cases h0 : fs.length = 0
      · exact Or.inl ⟨h0, by simp [postConvert, hmi, h0]⟩
      · cases hpf : processFiles sharpJpeg openImg (effectiveCompressionLevel body) fs with
        | ok pages =>
          exact Or.inr (Or.inl ⟨pages, rfl, by simp [postConvert, hmi, h0, hpf]⟩)
        | error flushed =>
          exact Or.inr (Or.inr ⟨flushed, rfl, by simp [postConvert, hmi, h0, hpf]⟩)

/-- C5 counterexample: a request carrying one file declared as an application
media type is rejected, but the file filter raises a plain error which the
middleware does not recognize as a multer limit error, so the caller receives
status 500, not 400. -/
theorem non_image_gives_500_not_400 :
    (postConvert idSharp alwaysOpen noStore pdfFile emptyBody none 0).fst =
      HttpResponse.jsonError 500 "Only image files are allowed" ∧
    statusOf (postConvert idSharp alwaysOpen noStore pdfFile emptyBody none 0).fst = 500 ∧
    ¬ statusOf (postConvert idSharp alwaysOpen noStore pdfFile emptyBody none 0).fst = 400 := by
  refine ⟨?_, ?_, ?_⟩ <;> decide

/-- C5 amended: a request within the count and size limits containing a file
whose declared media type is not an image fails with a JSON error body whose
error field names the file-type rule, but with HTTP status 500, because the
plain file-filter error falls to the generic branch of the middleware. -/
theorem non_image_rejected_500 (sharpJpeg : Buffer → Nat → Option Buffer)
    (openImg : Buffer → Option Image) (st : DbState) (files : List UploadedFile)
    (body : ConvertBody) (userId : Option String) (now : Nat)
    (hle : files.length ≤ MAX_FILES)
    (hsize : ∀ f ∈ files, f.buffer.length ≤ MAX_FILE_SIZE)
    (hbad : ∃ f ∈ files, isImageType f.mimetype = false) :
    (postConvert sharpJpeg openImg st files body userId now).fst =
      HttpResponse.jsonError 500 "Only image files are allowed" := by
  have hmi : multerIngest files =
      Except.error (AppError.genericErr "Only image files are allowed") :=
    multerIngestAux_badType files 0 (by omega) hsize hbad
  simp [postConvert, hmi, errorMiddleware]

theorem non_image_rejected_500_witness :
    pdfFile.length ≤ MAX_FILES ∧
    (∀ f ∈ pdfFile, f.buffer.length ≤ MAX_FILE_SIZE) ∧
    (∃ f ∈ pdfFile, isImageType f.mimetype = false) ∧
    (postConvert alwaysFailSharp alwaysOpen noStore pdfFile emptyBody none 0).fst =
      HttpResponse.jsonError 500 "Only image files are allowed" :=
  ⟨by decide, by decide, by decide,
    non_image_rejected_500 alwaysFailSharp alwaysOpen noStore pdfFile emptyBody none 0
      (by decide) (by decide) (by decide)⟩

/-- C6 counterexample: re-encoding fails on the second, corrupt file, the
adapter duly returns the original bytes, but the image opener cannot parse
those same corrupt bytes either, so the overall request does not succeed: it
ends as a truncated stream, refuting the unconditional claim that the
request still succeeds whenever compression fails for one file among
several. -/
theorem compression_failure_fails_request :
    corruptSharp [9] (quality "normal") = none ∧
    compressImage corruptSharp [9] "normal" = [9] ∧
    (postConvert corruptSharp corruptOpen noStore mixedFiles emptyBody none 0).fst =
      HttpResponse.truncatedPdf "converted.pdf" [Page.mk [1, 1] 3 4 0 0] ∧
    isPdfSuccess
      (postConvert corruptSharp corruptOpen noStore mixedFiles emptyBody none 0).fst = false := by
  refine ⟨?_, ?_, ?_, ?_⟩ <;> decide

/-- C6 amended: when re-encoding fails the adapter returns the original
buffer unchanged and never propagates the failure, and the request still
succeeds with every page built from its (possibly original) buffer provided
the page engine can open every resulting buffer; a buffer the engine cannot
open still fails the request. -/
theorem compression_failure_fallback (sharpJpeg : Buffer → Nat → Option Buffer)
    (openImg : Buffer → Option Image) (level : String)
    (files : List UploadedFile) (buf : Buffer)
    (hfail : sharpJpeg buf (quality level) = none)
    (hopen : ∀ f ∈ files, (openImg (compressImage sharpJpeg f.buffer level)).isSome = true) :
    compressImage sharpJpeg buf level = buf ∧
    ∃ pages, processFiles sharpJpeg openImg level files = Except.ok pages ∧
      pages.length = files.length ∧
      ∀ i, (hi : i < files.length) → (hp : i < pages.length) →
        (pages.get ⟨i, hp⟩).src = compressImage sharpJpeg (files.get ⟨i, hi⟩).buffer level := by
  constructor
  · simp [compressImage, hfail]
  · rcases processFiles_ok sharpJpeg openImg level files hopen with ⟨pages, hok, hlen, hidx⟩
    refine ⟨pages, hok, hlen, fun i hi hp => ?_⟩
    rcases hidx i hi hp with ⟨img, _, h3⟩
    exact congrArg Page.src h3

theorem compression_failure_fallback_witness :
    alwaysFailSharp [5] (quality "normal") = none ∧
    (∀ f ∈ twoFiles56,
      (alwaysOpen (compressImage alwaysFailSharp f.buffer "normal")).isSome = true) ∧
    (compressImage alwaysFailSharp [5] "normal" = [5] ∧
      ∃ pages, processFiles alwaysFailSharp alwaysOpen "normal" twoFiles56 = Except.ok pages ∧
        pages.length = twoFiles56.length ∧
        ∀ i, (hi : i < twoFiles56.length) → (hp : i < pages.length) →
          (pages.get ⟨i, hp⟩).src =
            compressImage alwaysFailSharp (twoFiles56.get ⟨i, hi⟩).buffer "normal") :=
  ⟨rfl, by decide,
    compression_failure_fallback alwaysFailSharp alwaysOpen "normal" twoFiles56 [5]
      rfl (by decide)⟩

/-- C7 counterexample: in the state where the startup probe succeeded but the
store is now unreachable, the conversions history endpoint answers with a 500
JSON error, not with the empty array. -/
theorem conversions_unreachable_500 :
    getConversions downStore = HttpResponse.jsonError 500 "Failed to fetch conversions" ∧
    ¬ getConversions downStore = HttpResponse.jsonRecords [] := by
  refine ⟨?_, ?_⟩ <;> decide

/-- C7 amended: with the store unreachable, the history endpoint returns the
empty array when the startup probe had failed, and a 500 JSON error when the
probe had succeeded; in every case the convert response is entirely
independent of the store state, so an audit failure never changes the
conversion outcome. -/
theorem audit_unavailability_behavior (sharpJpeg : Buffer → Nat → Option Buffer)
    (openImg : Buffer → Option Image) (files : List UploadedFile)
    (body : ConvertBody) (userId : Option String) (now : Nat) (st : DbState)
    (h : st.reachable = false) :
    (st.connected = false → getConversions st = HttpResponse.jsonRecords []) ∧
    (st.connected = true →
      getConversions st = HttpResponse.jsonError 500 "Failed to fetch conversions") ∧
    ∀ st' : DbState, (postConvert sharpJpeg openImg st files body userId now).fst =
      (postConvert sharpJpeg openImg st' files body userId now).fst := by
  refine ⟨?_, ?_, ?_⟩
  · intro hc; simp [getConversions, hc]
  · intro hc; simp [getConversions, hc, h]
  · intro st2
    cases hmi : multerIngest files with
    | error e => simp [postConvert, hmi]
    | ok fs =>
      by_cases h0 : fs.length = 0
      · simp [postConvert, hmi, h0]
      · cases hpf : processFiles sharpJpeg openImg (effectiveCompressionLevel body) fs with
        | ok pages => simp [postConvert, hmi, h0, hpf]
        | error flushed => simp [postConvert, hmi, h0, hpf]

theorem audit_unavailability_behavior_witness :
    downStore.reachable = false ∧
    ((downStore.connected = false → getConversions downStore = HttpResponse.jsonRecords []) ∧
      (downStore.connected = true →
        getConversions downStore = HttpResponse.jsonError 500 "Failed to fetch conversions") ∧
      ∀ st' : DbState, (postConvert idSharp alwaysOpen downStore oneJpeg emptyBody none 0).fst =
        (postConvert idSharp alwaysOpen st' oneJpeg emptyBody none 0).fst) :=
  ⟨rfl, audit_unavailability_behavior idSharp alwaysOpen oneJpeg emptyBody none 0 downStore rfl⟩

/-- C8: a valid request with between one and twenty files, every file within
the size limit and declared an image, on which the engine opens every
(possibly re-encoded) buffer, is answered with a complete PDF whose pages
match the inputs one to one in submission order: page i is sized exactly to
the pixel dimensions of the opened image of file i with the image placed at
the origin. -/
theorem convert_pages_match_inputs (sharpJpeg : Buffer → Nat → Option Buffer)
    (openImg : Buffer → Option Image) (st : DbState) (files : List UploadedFile)
    (body : ConvertBody) (userId : Option String) (now : Nat)
    (hne : 1 ≤ files.length) (hle : files.length ≤ MAX_FILES)
    (himg : ∀ f ∈ files, isImageType f.mimetype = true)
    (hsize : ∀ f ∈ files, f.buffer.length ≤ MAX_FILE_SIZE)
    (hopen : ∀ f ∈ files,
      (openImg (compressImage sharpJpeg f.buffer (effectiveCompressionLevel body))).isSome = true) :
    ∃ pages, (postConvert sharpJpeg openImg st files body userId now).fst =
        HttpResponse.pdfDoc (responseFilename body) pages ∧
      pages.length = files.length ∧
      ∀ i, (hi : i < files.length) → (hp : i < pages.length) →
        ∃ img, openImg (compressImage sharpJpeg (files.get ⟨i, hi⟩).buffer
            (effectiveCompressionLevel body)) = some img ∧
          pages.get ⟨i, hp⟩ =
            Page.mk (compressImage sharpJpeg (files.get ⟨i, hi⟩).buffer
              (effectiveCompressionLevel body)) img.width img.height 0 0 := by
  have hmi : multerIngest files = Except.ok files := multerIngest_ok files hle himg hsize
  rcases processFiles_ok sharpJpeg openImg (effectiveCompressionLevel body) files hopen with
    ⟨pages, hok, hlen, hidx⟩
  refine ⟨pages, ?_, hlen, hidx⟩
  have h0 : ¬ files.length = 0 := by omega
  simp [postConvert, hmi, h0, hok]

theorem convert_pages_match_inputs_witness :
    1 ≤ oneJpeg.length ∧ oneJpeg.length ≤ MAX_FILES ∧
    (∀ f ∈ oneJpeg, isImageType f.mimetype = true) ∧
    (∀ f ∈ oneJpeg, f.buffer.length ≤ MAX_FILE_SIZE) ∧
    (∀ f ∈ oneJpeg,
      (alwaysOpen (compressImage idSharp f.buffer (effectiveCompressionLevel emptyBody))).isSome
        = true) ∧
    (∃ pages, (postConvert idSharp alwaysOpen noStore oneJpeg emptyBody none 0).fst =
        HttpResponse.pdfDoc (responseFilename emptyBody) pages ∧
      pages.length = oneJpeg.length ∧
      ∀ i, (hi : i < oneJpeg.length) → (hp : i < pages.length) →
        ∃ img, alwaysOpen (compressImage idSharp (oneJpeg.get ⟨i, hi⟩).buffer
            (effectiveCompressionLevel emptyBody)) = some img ∧
          pages.get ⟨i, hp⟩ =
            Page.mk (compressImage idSharp (oneJpeg.get ⟨i, hi⟩).buffer
              (effectiveCompressionLevel emptyBody)) img.width img.height 0 0) :=
  ⟨by decide, by decide, by decide, by decide, by decide,
    convert_pages_match_inputs idSharp alwaysOpen noStore oneJpeg emptyBody none 0
      (by decide) (by decide) (by decide) (by decide) (by decide)⟩

/-- C10: the destructuring defaults apply only when a field is absent: a
present-but-empty filename yields the attachment name consisting of just the
pdf extension, and a present-but-empty compression level is the empty string,
which is not the literal normal but still selects quality 90 through the
default branch. -/
theorem defaults_only_when_absent :
    responseFilename (ConvertBody.mk (some "") (some "")) = ".pdf" ∧
    effectiveFilename (ConvertBody.mk none none) = "converted" ∧
    responseFilename (ConvertBody.mk none none) = "converted.pdf" ∧
    effectiveCompressionLevel (ConvertBody.mk (some "") (some "")) = "" ∧
    ("" : String) ≠ "normal" ∧
    quality "" = 90 ∧ quality "normal" = 90 := by
  refine ⟨?_, ?_, ?_, ?_, ?_, ?_, ?_⟩ <;> decide

end JpegToPdf
